import Mathlib

/-!
Verification of the authentication/session core of the SSO gateway
(OAuth2 callback handling, CSRF-state validation, user upsert, session
lifecycle).  Each definition is a shallow embedding of the corresponding
TypeScript source: JavaScript strings are modelled by Lean `String`
(code points; all values of interest are ASCII), JavaScript
`string.trim()` / `toLowerCase()` are re-implemented below as
kernel-computable functions with the same ASCII semantics, thrown
duck-typed error objects (`{type, message, statusCode}`) become an
explicit `AppError` value returned through `Except`, the SQLite tables
become lists of row records threaded through each operation, and
`new Date()` becomes an explicit clock carried in the store state.
-/

namespace SSO

/-! ## JavaScript string primitives -/

/-- Whitespace for the purposes of `String.prototype.trim` (ASCII part). -/
def jsIsSpace (c : Char) : Bool :=
  c = ' ' || c = '\t' || c = '\n' || c = '\r'

/-- Model of JavaScript `string.trim()`: strip leading and trailing
whitespace. -/
def jsTrim (s : String) : String :=
  ⟨((s.data.dropWhile jsIsSpace).reverse.dropWhile jsIsSpace).reverse⟩

/-- Lower-case one ASCII character, as `toLowerCase` does on ASCII. -/
def lowerChar (c : Char) : Char :=
  if 65 ≤ c.toNat ∧ c.toNat ≤ 90 then Char.ofNat (c.toNat + 32) else c

/-- Model of JavaScript `string.toLowerCase()` (ASCII semantics). -/
def jsToLower (s : String) : String :=
  ⟨s.data.map lowerChar⟩

/-- `pat.isInfixOf l`-style check: does `pat` occur contiguously in `l`?
Models JavaScript `String.prototype.includes`. -/
def listContainsSeg (pat : List Char) : List Char → Bool
  | [] => pat.isEmpty
  | c :: cs => pat.isPrefixOf (c :: cs) || listContainsSeg pat cs

/-- Model of JavaScript `message.includes(pattern)`. -/
def includesStr (s pat : String) : Bool :=
  listContainsSeg pat.data s.data

/-- JavaScript truthiness of an optional string parameter: `undefined`
and the empty string are falsy. -/
def presentB : Option String → Bool
  | none => false
  | some s => !(s == "")

/-! ## Error model

`src/models/interfaces.ts` declares `ErrorType` and the duck-typed
`AppError` shape `{type, message, statusCode, details?}`;
`src/config` (oauthErrors) adds the OAuth-specific `OAuthErrorType`
string values, cast into the same `type` field.  We enumerate both
families in one inductive.  The optional `details` payload carries no
control flow anywhere in the source and is omitted. -/

inductive ErrKind where
  | authenticationFailed
  | sessionExpired
  | userNotFound
  | databaseError
  | oauthError
  | templateError
  | validationError
  | oauthInvalidState
  | oauthProviderError
  | oauthProfileError
  | oauthTokenError
  | oauthCallbackError
deriving DecidableEq, Repr

structure AppError where
  etype : ErrKind
  message : String
  statusCode : Nat
deriving DecidableEq, Repr

/-- `createOAuthError(type, message, statusCode)` from the oauthErrors
module: builds the plain error object. -/
def createOAuthError (t : ErrKind) (message : String) (statusCode : Nat) : AppError :=
  ⟨t, message, statusCode⟩

/-! ## State token validator (oauthErrors module, `validateOAuthState`) -/

/-- UTF-16 code units of the token; all tokens are ASCII hex so code
points and code units coincide (`charCodeAt`). -/
def stateCodes (s : String) : List Nat :=
  s.data.map Char.toNat

/-- The comparison loop of `validateOAuthState`: accumulate an OR of
per-position XORs over every character (no short-circuit). -/
def stateXorAccum (r s : String) : Nat :=
  ((stateCodes r).zipWith (fun a b => a ^^^ b) (stateCodes s)).foldl (fun acc x => acc ||| x) 0

/-- `validateOAuthState(requestState, sessionState)`: false if either is
absent (`undefined`) or empty (both falsy in `!x`), false if lengths
differ, otherwise true iff the OR-of-XORs accumulator is zero. -/
def validateOAuthState (requestState sessionState : Option String) : Bool :=
  match requestState, sessionState with
  | some r, some s =>
    if r = "" || s = "" then false
    else if r.length ≠ s.length then false
    else stateXorAccum r s == 0
  | _, _ => false

/-! ## Helper lemmas for the state validator -/

theorem lor_zero_iff (x y : Nat) : x ||| y = 0 ↔ x = 0 ∧ y = 0 := by
  constructor
  · intro h
    constructor
    · apply Nat.eq_of_testBit_eq
      intro i
      rw [Nat.zero_testBit]
      have h2 := congrArg (fun n => Nat.testBit n i) h
      simp only [Nat.testBit_or, Nat.zero_testBit, Bool.or_eq_false_iff] at h2
      exact h2.1
    · apply Nat.eq_of_testBit_eq
      intro i
      rw [Nat.zero_testBit]
      have h2 := congrArg (fun n => Nat.testBit n i) h
      simp only [Nat.testBit_or, Nat.zero_testBit, Bool.or_eq_false_iff] at h2
      exact h2.2
  · rintro ⟨rfl, rfl⟩
    rfl

theorem foldl_lor_zero_iff (l : List Nat) (acc : Nat) :
    l.foldl (fun a x => a ||| x) acc = 0 ↔ acc = 0 ∧ ∀ x ∈ l, x = 0 := by
  induction l generalizing acc with
  | nil => simp
  | cons y ys ih =>
    simp only [List.foldl_cons, ih, lor_zero_iff, List.mem_cons]
    constructor
    · rintro ⟨⟨h1, h2⟩, h3⟩
      exact ⟨h1, fun x hx => hx.elim (fun he => he ▸ h2) (h3 x)⟩
    · rintro ⟨h1, h2⟩
      exact ⟨⟨h1, h2 y (Or.inl rfl)⟩, fun x hx => h2 x (Or.inr hx)⟩

theorem charToNat_inj {a b : Char} (h : a.toNat = b.toNat) : a = b :=
  Char.eq_of_val_eq (UInt32.eq_of_toBitVec_eq (BitVec.eq_of_toNat_eq h))

theorem zip_xor_eq (as bs : List Nat) (hlen : as.length = bs.length)
    (h : ∀ x ∈ as.zipWith (fun a b => a ^^^ b) bs, x = 0) : as = bs := by
  induction as generalizing bs with
  | nil => cases bs with
    | nil => rfl
    | cons b bs => simp at hlen
  | cons a as ih =>
    cases bs with
    | nil => simp at hlen
    | cons b bs =>
      simp only [List.zipWith_cons_cons, List.mem_cons] at h
      have hab : a = b := Nat.xor_eq_zero.mp (h (a ^^^ b) (Or.inl rfl))
      have htl : as = bs := by
        apply ih
        · simpa using hlen
        · intro x hx
          exact h x (Or.inr hx)
      rw [hab, htl]

theorem zip_xor_self (as : List Nat) : ∀ x ∈ as.zipWith (fun a b => a ^^^ b) as, x = 0 := by
  induction as with
  | nil => intro x hx; simp at hx
  | cons a as ih =>
    intro x hx
    simp only [List.zipWith_cons_cons, List.mem_cons] at hx
    cases hx with
    | inl h => rw [h, Nat.xor_self]
    | inr h => exact ih x h

theorem stateCodes_length (s : String) : (stateCodes s).length = s.length := by
  show (s.data.map Char.toNat).length = s.data.length
  simp

theorem stateCodes_inj {a b : String} (h : stateCodes a = stateCodes b) : a = b := by
  have hdata : a.data = b.data := by
    have hinj : Function.Injective Char.toNat := fun x y hxy => charToNat_inj hxy
    exact List.map_injective_iff.mpr hinj h
  exact String.toList_inj.mp hdata

/-- Claim C2: the state-token validator returns true iff both tokens are
present, non-empty and equal (hence of equal length and equal
character-by-character); moreover on the equal-length path the result is
exactly "the OR-of-XORs accumulator over every character position is
zero" (`stateXorAccum`, a fold over the full zip with no
short-circuit). -/
theorem validateOAuthState_spec :
    (∀ r s : Option String,
      validateOAuthState r s = true ↔ ∃ x : String, x ≠ "" ∧ r = some x ∧ s = some x)
    ∧ (∀ r s : String, r ≠ "" → s ≠ "" → r.length = s.length →
      validateOAuthState (some r) (some s) = (stateXorAccum r s == 0)) := by
  constructor
  · intro r s
    cases r with
    | none => simp [validateOAuthState]
    | some a =>
      cases s with
      | none => simp [validateOAuthState]
      | some b =>
        simp only [validateOAuthState]
        by_cases ha : a = ""
        · subst ha
          rw [if_pos (by simp)]
          refine iff_of_false (by simp) ?_
          rintro ⟨x, hx, hax, hbx⟩
          simp only [Option.some.injEq] at hax
          exact hx hax.symm
        · by_cases hb : b = ""
          · subst hb
            rw [if_pos (by simp)]
            refine iff_of_false (by simp) ?_
            rintro ⟨x, hx, hax, hbx⟩
            simp only [Option.some.injEq] at hbx
            exact hx hbx.symm
          · rw [if_neg (by simp [ha, hb])]
            by_cases hlen : a.length = b.length
            · rw [if_neg (fun hh => hh hlen)]
              constructor
              · intro h
                have h0 : stateXorAccum a b = 0 := by
                  simpa using h
                have hz := (foldl_lor_zero_iff _ 0).mp h0
                have hcodes : stateCodes a = stateCodes b := by
                  apply zip_xor_eq
                  · rw [stateCodes_length, stateCodes_length]
                    exact hlen
                  · exact hz.2
                have hab : a = b := stateCodes_inj hcodes
                exact ⟨a, ha, rfl, by rw [hab]⟩
              · rintro ⟨x, hx, hax, hbx⟩
                simp only [Option.some.injEq] at hax hbx
                rw [hax, hbx]
                have h0 : stateXorAccum x x = 0 := by
                  apply (foldl_lor_zero_iff _ 0).mpr
                  exact ⟨rfl, zip_xor_self (stateCodes x)⟩
                simpa using h0
            · rw [if_pos hlen]
              refine iff_of_false (by simp) ?_
              rintro ⟨x, hx, hax, hbx⟩
              simp only [Option.some.injEq] at hax hbx
              exact hlen (by rw [hax, hbx])
  · intro r s hr hs hlen
    simp only [validateOAuthState]
    rw [if_neg (by simp [hr, hs]), if_neg (fun hh => hh hlen)]

/-- Witness for C2 at concrete inputs: validate("ab","ab") is true and
the equal-length path agrees with the XOR accumulator on ("ab","ac"). -/
theorem validateOAuthState_spec_witness :
    validateOAuthState (some "ab") (some "ab") = true
    ∧ validateOAuthState (some "ab") (some "ac") = (stateXorAccum "ab" "ac" == 0) := by
  constructor
  · exact (validateOAuthState_spec.1 (some "ab") (some "ab")).mpr
      ⟨"ab", by decide, rfl, rfl⟩
  · exact validateOAuthState_spec.2 "ab" "ac" (by decide) (by decide) (by decide)

/-! ## Providers -/

inductive Provider where
  | microsoft
  | github
deriving DecidableEq, Repr

/-- The lower-case provider tag used in messages, profiles and rows. -/
def Provider.str : Provider → String
  | .microsoft => "microsoft"
  | .github => "github"

/-- The capitalized provider name used in the empty-code error message. -/
def Provider.title : Provider → String
  | .microsoft => "Microsoft"
  | .github => "GitHub"

/-! ## `handleOAuthError` (oauthErrors module) -/

/-- `handleOAuthError(error, provider)`: map a caught error to a
user-facing `AppError` by substring-matching its message; the
fallthrough branch is a generic `OAUTH_CALLBACK_ERROR` with status
500. -/
def handleOAuthError (e : AppError) (provider : Provider) : AppError :=
  if includesStr e.message "Invalid state parameter" then
    createOAuthError .oauthInvalidState
      "Authentication request validation failed. Please try again." 400
  else if includesStr e.message "access_denied" then
    createOAuthError .oauthProviderError
      ("Access denied by " ++ provider.str ++ ". Please grant the required permissions.") 403
  else if includesStr e.message "invalid_client" then
    createOAuthError .oauthProviderError
      "OAuth configuration error. Please contact support." 500
  else if includesStr e.message "User not found" then
    createOAuthError .oauthProfileError
      "Failed to retrieve user profile. Please try again." 500
  else
    createOAuthError .oauthCallbackError
      ("Authentication with " ++ provider.str ++ " failed. Please try again.") 500

/-! ## User model and User Store
(src/models/User.ts, src/services/UserService.ts)

The `users` table plus the uuid generator and the wall clock are made
explicit as a `UserStore` state threaded through the operations.  The
TypeScript `UserProfile.provider` is annotated as the literal union but
runtime values are unchecked strings, so the field is a `String`
here. -/

structure UserProfile where
  id : String
  username : String
  email : String
  provider : String
deriving DecidableEq, Repr

structure UserRec where
  id : String
  username : String
  email : String
  provider : String
  providerId : String
  createdAt : Nat
  updatedAt : Nat
deriving DecidableEq, Repr

structure UserStore where
  users : List UserRec
  fresh : Nat
  now : Nat
deriving DecidableEq, Repr

/-- Kernel-computable decimal rendering (replaces `toString` on `Nat`;
fuel-based so it reduces by `decide`). -/
def digitChar (d : Nat) : Char :=
  (['0', '1', '2', '3', '4', '5', '6', '7', '8', '9']).getD d '0'

def natDigitsAux : Nat → Nat → List Char
  | 0, _ => []
  | fuel + 1, n => if n < 10 then [digitChar n] else natDigitsAux fuel (n / 10) ++ [digitChar (n % 10)]

def natStr (n : Nat) : String :=
  ⟨natDigitsAux (n + 1) n⟩

/-- Models `uuidv4()` in the `User` constructor: a fresh opaque id. -/
def freshUserId (st : UserStore) : String :=
  "uuid-" ++ natStr st.fresh

/-- `sanitizeInput` (UserService): non-strings become the empty string,
strings are trimmed; all inputs here are strings, so: trim. -/
def sanitizeInput (s : String) : String :=
  jsTrim s

/-- `isValidProvider` (same logic in UserService and the User model):
case-insensitive membership in the two recognized provider names. -/
def isValidProvider (provider : String) : Bool :=
  jsToLower provider == "microsoft" || jsToLower provider == "github"

/-- A character admissible in the email regex character class
`[^\s@]`. -/
def emailSegChar (c : Char) : Bool :=
  !(jsIsSpace c) && !(c = '@')

/-- The email regular expression of `User.isValidEmail`
(`^[^\s@]+@[^\s@]+\.[^\s@]+$`): exactly one at-sign, a non-empty
whitespace-free local part, and a whitespace-free domain containing an
interior dot (the classes `[^\s@]` admit dots, so the regex accepts
exactly that shape). -/
def isValidEmail (s : String) : Bool :=
  let cs := s.data
  let atCount := (cs.filter (fun c => c = '@')).length
  let localPart := cs.takeWhile (fun c => !(c = '@'))
  let domain := (cs.dropWhile (fun c => !(c = '@'))).drop 1
  atCount == 1
    && !localPart.isEmpty && localPart.all emailSegChar
    && !domain.isEmpty && domain.all emailSegChar
    && ((domain.drop 1).dropLast.contains '.')

/-- `User.validate()`: the invalid fields, in source order (empty list =
valid; each entry is one pushed `ValidationError`). -/
def userValidate (u : UserRec) : List String :=
  (if jsTrim u.username == "" then ["username"] else [])
  ++ (if !(isValidEmail u.email) then ["email"] else [])
  ++ (if !(isValidProvider u.provider) then ["provider"] else [])
  ++ (if jsTrim u.providerId == "" then ["providerId"] else [])

/-- `UserService.findByProviderId`: validate and sanitize the inputs,
then an exact (case-sensitive) lookup on `(provider_id, provider)`;
`none` (SQL no row) is not an error. -/
def findByProviderId (st : UserStore) (providerId provider : String) :
    Except AppError (Option UserRec) :=
  let sanitizedProviderId := sanitizeInput providerId
  let sanitizedProvider := sanitizeInput provider
  if sanitizedProviderId == "" || sanitizedProvider == "" then
    .error ⟨.validationError, "Provider ID and provider are required", 400⟩
  else if !(isValidProvider sanitizedProvider) then
    .error ⟨.validationError, "Invalid provider. Must be microsoft or github", 400⟩
  else
    .ok (st.users.find? (fun u => u.providerId == sanitizedProviderId && u.provider == sanitizedProvider))

/-- `User.fromProfile` composed with the `User` constructor: fresh uuid,
both timestamps set to now. -/
def fromProfile (st : UserStore) (p : UserProfile) : UserRec :=
  { id := freshUserId st, username := p.username, email := p.email,
    provider := p.provider, providerId := p.id,
    createdAt := st.now, updatedAt := st.now }

/-- `UserService.createUser`: sanitize the profile (note: `provider` is
passed through untrimmed, per the source), validate, reject an existing
`(provider, provider-id)` pair with status 409, else insert. -/
def createUser (st : UserStore) (profile : UserProfile) :
    Except AppError (UserRec × UserStore) :=
  let sp : UserProfile :=
    { id := sanitizeInput profile.id, username := sanitizeInput profile.username,
      email := sanitizeInput profile.email, provider := profile.provider }
  let user := fromProfile st sp
  if userValidate user ≠ [] then
    .error ⟨.validationError, "User validation failed", 400⟩
  else
    match findByProviderId st sp.id sp.provider with
    | .error e => .error e
    | .ok (some _) => .error ⟨.validationError, "User already exists with this provider ID", 409⟩
    | .ok none => .ok (user, { st with users := st.users ++ [user], fresh := st.fresh + 1 })

/-- The lookup of `UserService.findById` over the `users` table:
`none` for an empty (after trim) id or a lookup miss; lookup misses
never throw. -/
def findUserById (users : List UserRec) (userId : String) : Option UserRec :=
  let sanitizedUserId := sanitizeInput userId
  if sanitizedUserId == "" then none
  else users.find? (fun u => u.id == sanitizedUserId)

/-- `UserService.findById`. -/
def findById (st : UserStore) (userId : String) : Option UserRec :=
  findUserById st.users userId

structure PartialProfile where
  id : Option String := none
  username : Option String := none
  email : Option String := none
  provider : Option String := none
deriving DecidableEq, Repr

/-- The merge step of `updateUser` + `User.update`: apply exactly the
fields present in the partial profile (each sanitized), bump
`updatedAt`. -/
def applyUpdate (u : UserRec) (p : PartialProfile) (now : Nat) : UserRec :=
  { u with
    username := match p.username with | some v => sanitizeInput v | none => u.username
    email := match p.email with | some v => sanitizeInput v | none => u.email
    provider := match p.provider with | some v => sanitizeInput v | none => u.provider
    providerId := match p.id with | some v => sanitizeInput v | none => u.providerId
    updatedAt := now }

/-- `UserService.updateUser`: 400 on empty id, 404 when no user, apply
the partial profile, re-validate the merged record, persist. -/
def updateUser (st : UserStore) (userId : String) (profile : PartialProfile) :
    Except AppError (UserRec × UserStore) :=
  let sanitizedUserId := sanitizeInput userId
  if sanitizedUserId == "" then
    .error ⟨.validationError, "User ID is required", 400⟩
  else
    match findById st sanitizedUserId with
    | none => .error ⟨.userNotFound, "User not found", 404⟩
    | some existingUser =>
      let updated := applyUpdate existingUser profile st.now
      if userValidate updated ≠ [] then
        .error ⟨.validationError, "User validation failed", 400⟩
      else
        .ok (updated,
          { st with users := st.users.map (fun u => if u.id == sanitizedUserId then updated else u) })

/-! ## Auth Orchestrator: callback path (src/services/AuthService.ts) -/

/-- `AuthServiceImpl.findOrCreateUser`: look up by `(profile.id,
profile.provider)`; create when absent; update username/email when they
differ from the fresh profile; wrap any failure as
`OAUTH_PROFILE_ERROR` (500). -/
def findOrCreateUser (st : UserStore) (profile : UserProfile) :
    Except AppError (UserRec × UserStore) :=
  let attempt : Except AppError (UserRec × UserStore) :=
    match findByProviderId st profile.id profile.provider with
    | .error e => .error e
    | .ok none => createUser st profile
    | .ok (some user) =>
      if user.username ≠ profile.username ∨ user.email ≠ profile.email then
        updateUser st user.id { username := some profile.username, email := some profile.email }
      else
        .ok (user, st)
  match attempt with
  | .ok v => .ok v
  | .error _ => .error (createOAuthError .oauthProfileError "Failed to process user profile" 500)

/-- External dependencies of the callback path: the `isInitialized`
flag and the network part of the code-for-token-for-profile exchange
(`exchangeMicrosoftCode` / `exchangeGitHubCode`).  The exchange is an
oracle here; `none` models any network or HTTP failure (whose message
only feeds the `TOKEN_ERROR` wrapper). -/
structure CallbackDeps where
  initialized : Bool
  exchange : Provider → String → Option UserProfile

/-- `exchangeCodeForProfile`: run the provider exchange; any failure is
wrapped as `OAUTH_TOKEN_ERROR` (500). -/
def exchangeCodeForProfile (deps : CallbackDeps) (provider : Provider) (code : String) :
    Except AppError UserProfile :=
  match deps.exchange provider code with
  | some p => .ok p
  | none => .error (createOAuthError .oauthTokenError
      ("Failed to exchange authorization code for " ++ provider.str) 500)

/-- Common body of `handleMicrosoftCallback` / `handleGitHubCallback`
(the two methods are identical up to the provider tag): the
initialization gate, the empty-code check, the conditional CSRF-state
check (skipped when either state value is falsy), the exchange, and the
upsert.  Every error thrown inside the `try` is routed through
`handleOAuthError` by the method's `catch`.  The result carries the
updated User Store and the number of invocations of the OAuth client
(the exchange oracle), so that "the provider is never contacted" is
expressible. -/
def handleProviderCallback (deps : CallbackDeps) (st : UserStore) (provider : Provider)
    (code : String) (state sessionState : Option String) :
    Except AppError UserProfile × UserStore × Nat :=
  if !deps.initialized then
    (.error (handleOAuthError (createOAuthError .oauthProviderError
      "OAuth service not initialized. Call initializeOAuth() first." 500) provider), st, 0)
  else if code == "" then
    (.error (handleOAuthError (createOAuthError .oauthCallbackError
      ("Authorization code is required for " ++ provider.title ++ " OAuth callback") 400) provider), st, 0)
  else if presentB state && presentB sessionState && !(validateOAuthState state sessionState) then
    (.error (handleOAuthError (createOAuthError .oauthInvalidState
      "Invalid state parameter - possible CSRF attack" 400) provider), st, 0)
  else
    match exchangeCodeForProfile deps provider code with
    | .error e => (.error (handleOAuthError e provider), st, 1)
    | .ok profile =>
      match findOrCreateUser st profile with
      | .error e => (.error (handleOAuthError e provider), st, 1)
      | .ok (user, st2) =>
        (.ok { id := user.id, username := user.username, email := user.email,
               provider := provider.str }, st2, 1)

/-- `handleMicrosoftCallback(code, state, sessionState)`. -/
def handleMicrosoftCallback (deps : CallbackDeps) (st : UserStore)
    (code : String) (state sessionState : Option String) :
    Except AppError UserProfile × UserStore × Nat :=
  handleProviderCallback deps st .microsoft code state sessionState

/-- `handleGitHubCallback(code, state, sessionState)`. -/
def handleGitHubCallback (deps : CallbackDeps) (st : UserStore)
    (code : String) (state sessionState : Option String) :
    Except AppError UserProfile × UserStore × Nat :=
  handleProviderCallback deps st .github code state sessionState

deriving instance DecidableEq for Except

/-! ## Concrete fixtures for witnesses and counterexamples -/

/-- An initialized dependency bundle whose exchange oracle always fails
(never reached in the scenarios that use it). -/
def cDeps : CallbackDeps :=
  { initialized := true, exchange := fun _ _ => none }

/-- An uninitialized dependency bundle. -/
def cDepsUninit : CallbackDeps :=
  { initialized := false, exchange := fun _ _ => none }

/-- An empty user store with a fixed clock. -/
def cStore : UserStore :=
  { users := [], fresh := 0, now := 1000 }

/-! ## Claim C1 -/

/-- Claim C1: with the service initialized and a non-empty code, (a) if
both state values are present (provided and non-empty, mirroring the
code's truthiness test) and the 4.2 validator rejects them, the callback
fails with the `INVALID_STATE` error (status 400) — which survives
`handleOAuthError` because its message matches the "Invalid state
parameter" branch — and the OAuth client is never invoked; (b) if either
state value is absent, the state check is skipped and processing reaches
the token exchange (exactly one OAuth-client invocation, whatever its
outcome). -/
theorem handleCallback_stateCheck (deps : CallbackDeps) (st : UserStore) (provider : Provider)
    (code : String) (state sessionState : Option String)
    (hinit : deps.initialized = true) (hcode : code ≠ "") :
    (presentB state = true → presentB sessionState = true →
      validateOAuthState state sessionState = false →
      handleProviderCallback deps st provider code state sessionState
        = (.error (createOAuthError .oauthInvalidState
            "Authentication request validation failed. Please try again." 400), st, 0))
    ∧ ((presentB state = false ∨ presentB sessionState = false) →
      (handleProviderCallback deps st provider code state sessionState).2.2 = 1) := by
  have hcodeB : (code == "") = false := by
    simp [hcode]
  constructor
  · intro h1 h2 h3
    simp only [handleProviderCallback, hinit, hcodeB, h1, h2, h3, Bool.not_true,
      Bool.false_eq_true, if_false, Bool.and_true, Bool.true_and, Bool.not_false,
      Bool.and_self, if_true]
    rfl
  · intro hmiss
    have hcond : (presentB state && presentB sessionState
        && !(validateOAuthState state sessionState)) = false := by
      cases hmiss with
      | inl h => simp [h]
      | inr h => simp [h]
    simp only [handleProviderCallback, hinit, hcodeB, hcond, Bool.not_true,
      Bool.false_eq_true, if_false]
    cases hE : exchangeCodeForProfile deps provider code with
    | error e => rfl
    | ok profile =>
      cases hU : findOrCreateUser st profile with
      | error e => simp [hU]
      | ok v =>
        obtain ⟨user, st2⟩ := v
        simp [hU]

/-- Witness for C1: explicit CSRF rejection on mismatched states, and an
exchange invocation when the request state is absent. -/
theorem handleCallback_stateCheck_witness :
    handleProviderCallback cDeps cStore .microsoft "code0" (some "aa") (some "bb")
      = (.error (createOAuthError .oauthInvalidState
          "Authentication request validation failed. Please try again." 400), cStore, 0)
    ∧ (handleProviderCallback cDeps cStore .github "code0" none (some "bb")).2.2 = 1 := by
  constructor
  · exact (handleCallback_stateCheck cDeps cStore .microsoft "code0" (some "aa") (some "bb")
      rfl (by decide)).1 (by decide) (by decide) (by decide)
  · exact (handleCallback_stateCheck cDeps cStore .github "code0" none (some "bb")
      rfl (by decide)).2 (Or.inl (by decide))

/-! ## Claim C3

The source does throw a `CALLBACK_ERROR` with status 400 for an empty
code, but the method's own `catch` immediately routes it through
`handleOAuthError`, whose substring checks do not match that message, so
the error surfaced to the caller is the generic `OAUTH_CALLBACK_ERROR`
with status 500.  The fail-fast part (zero OAuth-client invocations)
does hold. -/

/-- Counterexample to C3 as stated: on an empty code the surfaced error
has status 500, not 400 (and the OAuth client sees zero invocations). -/
theorem handleCallback_emptyCode_cex :
    (handleProviderCallback cDeps cStore .microsoft "" none none).1
      = .error ⟨.oauthCallbackError,
          "Authentication with microsoft failed. Please try again.", 500⟩
    ∧ (∀ e, (handleProviderCallback cDeps cStore .microsoft "" none none).1 = .error e
        → e.statusCode ≠ 400)
    ∧ (handleProviderCallback cDeps cStore .microsoft "" none none).2.2 = 0 := by
  refine ⟨by decide, ?_, by decide⟩
  intro e he
  have : e = ⟨.oauthCallbackError,
      "Authentication with microsoft failed. Please try again.", 500⟩ := by
    have h0 : (handleProviderCallback cDeps cStore .microsoft "" none none).1
        = .error ⟨.oauthCallbackError,
            "Authentication with microsoft failed. Please try again.", 500⟩ := by decide
    rw [h0] at he
    injection he.symm
  rw [this]
  decide

/-- Claim C3 as amended: for every provider, an empty authorization code
makes the callback fail before any OAuth-client invocation (zero
invocations), with an error of kind `CALLBACK_ERROR`; the surfaced
status is 500 (the internally thrown 400 is re-wrapped by
`handleOAuthError`'s generic branch). -/
theorem handleCallback_emptyCode (deps : CallbackDeps) (st : UserStore) (provider : Provider)
    (state sessionState : Option String) (hinit : deps.initialized = true) :
    handleProviderCallback deps st provider "" state sessionState
      = (.error (createOAuthError .oauthCallbackError
          ("Authentication with " ++ provider.str ++ " failed. Please try again.") 500), st, 0) := by
  cases provider <;>
    simp only [handleProviderCallback, hinit, Bool.not_true, Bool.false_eq_true, if_false] <;>
    rfl

/-- Witness for C3 (amended) at a concrete input. -/
theorem handleCallback_emptyCode_witness :
    handleProviderCallback cDeps cStore .github "" (some "aa") (some "aa")
      = (.error (createOAuthError .oauthCallbackError
          "Authentication with github failed. Please try again." 500), cStore, 0) :=
  handleCallback_emptyCode cDeps cStore .github (some "aa") (some "aa") rfl

/-! ## User Store helper lemmas -/

/-- A profile whose fields are unchanged by `sanitizeInput` trimming.
(Values that pass the provider/id checks in real flows carry no
surrounding whitespace; stating this explicitly keeps the theorems free
of whitespace algebra.) -/
abbrev trimNeutral (p : UserProfile) : Prop :=
  sanitizeInput p.id = p.id ∧ sanitizeInput p.username = p.username
    ∧ sanitizeInput p.email = p.email ∧ sanitizeInput p.provider = p.provider

/-- Field-level validity of a profile, matching `User.validate` on the
record built from it. -/
abbrev profileValid (p : UserProfile) : Prop :=
  p.id ≠ "" ∧ p.username ≠ "" ∧ isValidEmail p.email = true ∧ isValidProvider p.provider = true

theorem isValidProvider_ne_empty {p : String} (h : isValidProvider p = true) : p ≠ "" := by
  intro he
  rw [he] at h
  exact absurd h (by decide)

theorem userValidate_nil (u : UserRec)
    (hu : jsTrim u.username = u.username) (hpid : jsTrim u.providerId = u.providerId)
    (h1 : u.username ≠ "") (h2 : isValidEmail u.email = true)
    (h3 : isValidProvider u.provider = true) (h4 : u.providerId ≠ "") :
    userValidate u = [] := by
  simp [userValidate, hu, hpid, h1, h2, h3, h4]

theorem findByProviderId_ok (st : UserStore) (providerId provider : String)
    (ht1 : sanitizeInput providerId = providerId) (ht2 : sanitizeInput provider = provider)
    (h1 : providerId ≠ "") (h2 : isValidProvider provider = true) :
    findByProviderId st providerId provider
      = .ok (st.users.find? (fun u => u.providerId == providerId && u.provider == provider)) := by
  have h3 : provider ≠ "" := isValidProvider_ne_empty h2
  simp [findByProviderId, ht1, ht2, h1, h2, h3]

theorem createUser_ok (st : UserStore) (p : UserProfile)
    (ht : trimNeutral p) (hv : profileValid p)
    (hfresh : st.users.find? (fun u => u.providerId == p.id && u.provider == p.provider) = none) :
    createUser st p = .ok (fromProfile st p,
      { st with users := st.users ++ [fromProfile st p], fresh := st.fresh + 1 }) := by
  obtain ⟨ht1, ht2, ht3, ht4⟩ := ht
  obtain ⟨hv1, hv2, hv3, hv4⟩ := hv
  have hval : userValidate (fromProfile st p) = [] :=
    userValidate_nil _ ht2 ht1 hv2 hv3 hv4 hv1
  have hFB := findByProviderId_ok st p.id p.provider ht1 ht4 hv1 hv4
  simp only [createUser, ht1, ht2, ht3]
  rw [if_neg (by simp [hval]), hFB, hfresh]

theorem createUser_conflict (st : UserStore) (p : UserProfile) (w : UserRec)
    (ht : trimNeutral p) (hv : profileValid p)
    (hmatch : st.users.find? (fun u => u.providerId == p.id && u.provider == p.provider) = some w) :
    createUser st p
      = .error ⟨.validationError, "User already exists with this provider ID", 409⟩ := by
  obtain ⟨ht1, ht2, ht3, ht4⟩ := ht
  obtain ⟨hv1, hv2, hv3, hv4⟩ := hv
  have hval : userValidate (fromProfile st p) = [] :=
    userValidate_nil _ ht2 ht1 hv2 hv3 hv4 hv1
  have hFB := findByProviderId_ok st p.id p.provider ht1 ht4 hv1 hv4
  simp only [createUser, ht1, ht2, ht3]
  rw [if_neg (by simp [hval]), hFB, hmatch]

/-! ## Claim C4 -/

/-- Claim C4: starting from a store with no user for the shared
`(provider, provider-id)` pair, two `createUser` calls for that pair
(both profiles well-formed) yield exactly one success — the first —
and the second fails with the uniqueness rejection carrying status 409
("ConflictError" in the spec's status-code taxonomy; the duck-typed
`type` field is `VALIDATION_ERROR`).  The profiles are universally
quantified, so the statement covers both orders of the two calls. -/
theorem createUser_unique (st : UserStore) (p1 p2 : UserProfile)
    (ht1 : trimNeutral p1) (ht2 : trimNeutral p2)
    (hv1 : profileValid p1) (hv2 : profileValid p2)
    (hkey : p2.id = p1.id ∧ p2.provider = p1.provider)
    (hfresh : ∀ u ∈ st.users, ¬(u.providerId = p1.id ∧ u.provider = p1.provider)) :
    ∃ u1 st1, createUser st p1 = .ok (u1, st1)
      ∧ createUser st1 p2
          = .error ⟨.validationError, "User already exists with this provider ID", 409⟩ := by
  have hfind : st.users.find? (fun u => u.providerId == p1.id && u.provider == p1.provider)
      = none := by
    rw [List.find?_eq_none]
    intro x hx
    simp only [Bool.and_eq_true, beq_iff_eq, not_and]
    intro ha hb
    exact hfresh x hx ⟨ha, hb⟩
  refine ⟨fromProfile st p1,
    { st with users := st.users ++ [fromProfile st p1], fresh := st.fresh + 1 },
    createUser_ok st p1 ht1 hv1 hfind, ?_⟩
  apply createUser_conflict _ _ (fromProfile st p1) ht2 hv2
  rw [List.find?_append]
  have hnone : st.users.find? (fun u => u.providerId == p2.id && u.provider == p2.provider)
      = none := by
    rw [List.find?_eq_none]
    intro x hx
    simp only [Bool.and_eq_true, beq_iff_eq, not_and, hkey.1, hkey.2]
    intro ha hb
    exact hfresh x hx ⟨ha, hb⟩
  rw [hnone]
  simp [fromProfile, hkey.1, hkey.2]

/-- Concrete profiles for the C4 witness. -/
def cP1 : UserProfile :=
  { id := "gh-1", username := "alice", email := "a@x.com", provider := "github" }

def cP2 : UserProfile :=
  { id := "gh-1", username := "bob", email := "b@y.org", provider := "github" }

/-- Witness for C4: the concrete duplicate pair on an empty store. -/
theorem createUser_unique_witness :
    ∃ u1 st1, createUser cStore cP1 = .ok (u1, st1)
      ∧ createUser st1 cP2
          = .error ⟨.validationError, "User already exists with this provider ID", 409⟩ :=
  createUser_unique cStore cP1 cP2 (by decide) (by decide) (by decide) (by decide)
    ⟨rfl, rfl⟩ (by simp [cStore])

/-! ## Claim C5

`updateUser` copies `provider` (when `profile.provider` is defined) and
`providerId` (when `profile.id` is defined) from the partial profile
into the stored record, so provider and provider-id are *not* immutable
through `updateUser`; they are preserved only when the partial profile
omits those fields. -/

/-- A stored user and store for the C5 scenario. -/
def c5User : UserRec :=
  { id := "u-1", username := "alice", email := "a@x.com",
    provider := "microsoft", providerId := "m-1", createdAt := 5, updatedAt := 5 }

def c5Store : UserStore :=
  { users := [c5User], fresh := 1, now := 9 }

/-- The record C5's counterexample update produces: provider and
provider-id overwritten, updated-at bumped to the store clock. -/
def c5Mutated : UserRec :=
  { id := "u-1", username := "alice", email := "a@x.com",
    provider := "github", providerId := "g-9", createdAt := 5, updatedAt := 9 }

/-- Counterexample to C5 as stated: an `updateUser` call whose partial
profile carries `provider`/`id` succeeds and changes the stored
provider from "microsoft" to "github" and the provider-id from "m-1" to
"g-9". -/
theorem updateUser_identity_cex :
    updateUser c5Store "u-1" { id := some "g-9", provider := some "github" }
      = .ok (c5Mutated, { users := [c5Mutated], fresh := 1, now := 9 })
    ∧ c5Mutated.provider ≠ c5User.provider ∧ c5Mutated.providerId ≠ c5User.providerId
    ∧ c5User.provider = "microsoft" ∧ c5User.providerId = "m-1" := by
  decide

/-- Claim C5 as amended: `updateUser` leaves the stored provider and
provider-id of the target user unchanged whenever the partial profile
omits the `provider` and `id` fields (the upsert path of the login flow
only ever passes username/email); when those fields are present they
are applied, so the immutability is conditional, not unconditional. -/
theorem updateUser_keeps_identity (st : UserStore) (userId : String) (p : PartialProfile)
    (hp1 : p.provider = none) (hp2 : p.id = none) :
    ∀ u2 st2, updateUser st userId p = .ok (u2, st2) →
      ∃ ex ∈ st.users, u2 = applyUpdate ex p st.now
        ∧ u2.provider = ex.provider ∧ u2.providerId = ex.providerId := by
  intro u2 st2 h
  simp only [updateUser] at h
  split at h
  · exact absurd h (by simp)
  · split at h
    · exact absurd h (by simp)
    · rename_i ex hF
      split at h
      · exact absurd h (by simp)
      · simp only [Except.ok.injEq, Prod.mk.injEq] at h
        have hpair : applyUpdate ex p st.now = u2 := h.1
        have hmem : ex ∈ st.users := by
          simp only [findById, findUserById] at hF
          split at hF
          · exact absurd hF (by simp)
          · exact List.mem_of_find?_eq_some hF
        refine ⟨ex, hmem, hpair.symm, ?_, ?_⟩
        · rw [← hpair]
          simp [applyUpdate, hp1]
        · rw [← hpair]
          simp [applyUpdate, hp2]

/-- The record the C5 witness update produces (username refreshed,
identity fields untouched). -/
def c5Renamed : UserRec :=
  { id := "u-1", username := "bob", email := "a@x.com",
    provider := "microsoft", providerId := "m-1", createdAt := 5, updatedAt := 9 }

/-- Witness for C5 (amended): a username-only update on the concrete
store keeps provider "microsoft" and provider-id "m-1". -/
theorem updateUser_keeps_identity_witness :
    ∃ ex ∈ c5Store.users,
      c5Renamed = applyUpdate ex { username := some "bob" } c5Store.now
      ∧ c5Renamed.provider = ex.provider ∧ c5Renamed.providerId = ex.providerId :=
  updateUser_keeps_identity c5Store "u-1" { username := some "bob" } rfl rfl
    c5Renamed { users := [c5Renamed], fresh := 1, now := 9 } (by decide)

/-! ## Claim C10 -/

/-- Claim C10: provider names are validated case-insensitively (any
letter-casing whose lower-casing is "microsoft" or "github" passes
`isValidProvider`), while storage and lookup compare the provider
case-sensitively: a user created with provider "GitHub" is persisted
with exactly that casing, and a subsequent
`findByProviderId(pid, "github")` returns `ok none` (not-found), not an
error. -/
theorem provider_case_sensitivity :
    (∀ p : String, jsToLower p = "microsoft" ∨ jsToLower p = "github" →
      isValidProvider p = true)
    ∧ (∀ (st : UserStore) (pid un em : String),
        sanitizeInput pid = pid → pid ≠ "" →
        sanitizeInput un = un → un ≠ "" →
        sanitizeInput em = em → isValidEmail em = true →
        (∀ u ∈ st.users, u.providerId ≠ pid) →
        ∃ u1 st1,
          createUser st { id := pid, username := un, email := em, provider := "GitHub" }
            = .ok (u1, st1)
          ∧ u1.provider = "GitHub"
          ∧ findByProviderId st1 pid "github" = .ok none) := by
  constructor
  · intro p hp
    cases hp with
    | inl h => simp [isValidProvider, h]
    | inr h => simp [isValidProvider, h]
  · intro st pid un em htp hpne htu hune hte hem hfr
    have hfind : st.users.find?
        (fun u => u.providerId == pid && u.provider == "GitHub") = none := by
      rw [List.find?_eq_none]
      intro x hx
      simp only [Bool.and_eq_true, beq_iff_eq, not_and]
      intro ha _
      exact absurd ha (hfr x hx)
    have hok := createUser_ok st { id := pid, username := un, email := em, provider := "GitHub" }
      ⟨htp, htu, hte, show sanitizeInput "GitHub" = "GitHub" by decide⟩
      ⟨hpne, hune, hem, show isValidProvider "GitHub" = true by decide⟩ hfind
    refine ⟨_, _, hok, rfl, ?_⟩
    rw [findByProviderId_ok _ pid "github" htp (by decide) hpne (by decide)]
    have : (st.users ++ [fromProfile st { id := pid, username := un, email := em, provider := "GitHub" }]).find?
        (fun u => u.providerId == pid && u.provider == "github") = none := by
      rw [List.find?_eq_none]
      intro x hx
      rw [List.mem_append] at hx
      cases hx with
      | inl hmem =>
        simp only [Bool.and_eq_true, beq_iff_eq, not_and]
        intro ha _
        exact absurd ha (hfr x hmem)
      | inr hone =>
        simp only [List.mem_singleton] at hone
        rw [hone]
        simp [fromProfile]
    rw [this]

/-- Witness for C10 at concrete inputs. -/
theorem provider_case_sensitivity_witness :
    isValidProvider "MicroSoft" = true
    ∧ ∃ u1 st1,
        createUser cStore { id := "gh-1", username := "alice", email := "a@x.com", provider := "GitHub" }
          = .ok (u1, st1)
        ∧ u1.provider = "GitHub"
        ∧ findByProviderId st1 "gh-1" "github" = .ok none := by
  constructor
  · exact provider_case_sensitivity.1 "MicroSoft" (Or.inl (by decide))
  · exact provider_case_sensitivity.2 cStore "gh-1" "alice" "a@x.com"
      (by decide) (by decide) (by decide) (by decide) (by decide) (by decide)
      (by simp [cStore])

/-! ## Session Manager (SessionManager service, src/models/Session.ts)

State: the `users` and `sessions` tables, the wall clock in epoch
milliseconds (`Date.now()` / `new Date()` comparisons are numeric), and
the randomness source for session ids made explicit as a fresh
counter.  `validate` parses the stored row back into a `Session`
(`fromDatabaseRow`) and compares dates numerically, so epoch
milliseconds model that path exactly; the SQL-text comparison used by
`cleanup` is modelled separately below. -/

structure SessRec where
  id : String
  userId : String
  createdAt : Nat
  expiresAt : Nat
deriving DecidableEq, Repr

structure SessState where
  users : List UserRec
  sessions : List SessRec
  now : Nat
  fresh : Nat
deriving DecidableEq, Repr

/-- Models `generateSecureSessionId` (32 random bytes, hex-encoded):
an opaque fresh id. -/
def freshSessionId (st : SessState) : String :=
  "sess-" ++ natStr st.fresh

/-- `Session.isExpired()`: `new Date() > this.expiresAt`, strict. -/
def sessIsExpired (now : Nat) (s : SessRec) : Bool :=
  now > s.expiresAt

/-- `Session.validate()`: the failed checks, in source order (empty
userId, expired, expiry before creation). -/
def sessValidateErrs (now : Nat) (s : SessRec) : List String :=
  (if jsTrim s.userId == "" then ["userId"] else [])
  ++ (if sessIsExpired now s then ["expired"] else [])
  ++ (if s.createdAt > s.expiresAt then ["expiresBeforeCreated"] else [])

/-- `verifyUserExists`: `SELECT 1 FROM users WHERE id = ?`. -/
def verifyUserExists (st : SessState) (userId : String) : Bool :=
  st.users.any (fun u => u.id == userId)

/-- The default session duration (24 h in milliseconds). -/
def defaultSessionDur : Nat := 24 * 60 * 60 * 1000

/-- `SessionManager.create(userId, durationMs?)`: 400 on empty
(trimmed) id, 404 when the user does not exist, then build the session
(`durationMs || default` — JavaScript `||`, so an explicit 0 also falls
back to the default), validate it, and insert the row. -/
def smCreate (st : SessState) (userId : String) (durationMs : Option Nat) :
    Except AppError (SessRec × SessState) :=
  let sanitizedUserId := sanitizeInput userId
  if sanitizedUserId == "" then
    .error ⟨.validationError, "User ID is required to create session", 400⟩
  else if !(verifyUserExists st sanitizedUserId) then
    .error ⟨.userNotFound, "Cannot create session for non-existent user", 404⟩
  else
    let dur := match durationMs with
      | some d => if d == 0 then defaultSessionDur else d
      | none => defaultSessionDur
    let session : SessRec :=
      { id := freshSessionId st, userId := sanitizedUserId,
        createdAt := st.now, expiresAt := st.now + dur }
    if sessValidateErrs st.now session ≠ [] then
      .error ⟨.validationError, "Session validation failed", 400⟩
    else
      .ok (session, { st with sessions := st.sessions ++ [session], fresh := st.fresh + 1 })

/-- `SessionManager.destroy(sessionId)`: 400 on empty (trimmed) id,
otherwise `DELETE FROM sessions WHERE id = ?` — deleting an absent row
is not an error. -/
def smDestroy (st : SessState) (sessionId : String) : Except AppError SessState :=
  let sanitizedSessionId := sanitizeInput sessionId
  if sanitizedSessionId == "" then
    .error ⟨.validationError, "Session ID is required", 400⟩
  else
    .ok { st with sessions := st.sessions.filter (fun r => !(r.id == sanitizedSessionId)) }

/-- `SessionManager.validate(sessionId)`: total (the source wraps the
body in a catch-all returning null).  Empty (trimmed) id, missing row,
or a row failing `isValid` yield `none`; an expired row is destroyed
(the row really is deleted) before returning `none`. -/
def smValidate (st : SessState) (sessionId : String) : Option SessRec × SessState :=
  let sanitizedSessionId := sanitizeInput sessionId
  if sanitizedSessionId == "" then (none, st)
  else
    match st.sessions.find? (fun r => r.id == sanitizedSessionId) with
    | none => (none, st)
    | some session =>
      if sessIsExpired st.now session then
        (none, { st with sessions := st.sessions.filter (fun r => !(r.id == session.id)) })
      else if jsTrim session.userId == "" then
        (none, st)
      else
        (some session, st)

/-! ## Auth Orchestrator: session operations (AuthServiceImpl)

`createSession` / `validateSession` / `destroySession` do **not** call
`ensureInitialized`; the `initialized` flag is carried in the state to
make that observable.  Their `catch` blocks rethrow any error that
already has the duck-typed `AppError` shape unchanged — and every error
produced by the modelled stores has that shape — wrapping only foreign
exceptions (unrepresentable here) as `AUTHENTICATION_FAILED` (500). -/

structure AuthState where
  initialized : Bool
  sess : SessState
deriving DecidableEq, Repr

/-- `AuthServiceImpl.createSession(userId)`: own empty-id check (400),
then `SessionManager.create` with the default duration; store errors
(which are all `AppError`-shaped) pass through unchanged. -/
def authCreateSession (a : AuthState) (userId : String) :
    Except AppError (String × AuthState) :=
  if jsTrim userId == "" then
    .error ⟨.validationError, "User ID is required to create session", 400⟩
  else
    match smCreate a.sess userId none with
    | .ok (session, st2) => .ok (session.id, { a with sess := st2 })
    | .error e => .error e

/-- `AuthServiceImpl.validateSession(sessionId)`: total; empty id or
invalid session give `none`; a valid session whose user is gone has the
session destroyed (orphan cleanup) and gives `none`. -/
def authValidateSession (a : AuthState) (sessionId : String) :
    Option UserRec × AuthState :=
  if jsTrim sessionId == "" then (none, a)
  else
    match smValidate a.sess sessionId with
    | (none, st2) => (none, { a with sess := st2 })
    | (some session, st2) =>
      match findUserById st2.users session.userId with
      | none =>
        match smDestroy st2 sessionId with
        | .ok st3 => (none, { a with sess := st3 })
        | .error _ => (none, { a with sess := st2 })
      | some user => (some user, { a with sess := st2 })

/-- `AuthServiceImpl.destroySession(sessionId)`: own empty-id check
(400), then `SessionManager.destroy`; store errors pass through. -/
def authDestroySession (a : AuthState) (sessionId : String) :
    Except AppError AuthState :=
  if jsTrim sessionId == "" then
    .error ⟨.validationError, "Session ID is required to destroy session", 400⟩
  else
    match smDestroy a.sess sessionId with
    | .ok st2 => .ok { a with sess := st2 }
    | .error e => .error e

/-! ## Claim C6 -/

/-- Claim C6: `SessionManager.validate` is total — the source wraps the
body in a catch-all returning null, so it never throws, and the model
is a plain function.  It returns `none` for an empty (trimmed) id, for
an id with no matching row, and for a session whose expiry is strictly
in the past; in the expired case the row is actually deleted from the
table, so a repeated `validate` on the same id against the post-state
also returns `none`. -/
theorem smValidate_spec (st : SessState) (sessionId : String) :
    (sanitizeInput sessionId = "" → smValidate st sessionId = (none, st))
    ∧ (st.sessions.find? (fun r => r.id == sanitizeInput sessionId) = none →
        smValidate st sessionId = (none, st))
    ∧ (∀ r, sanitizeInput sessionId ≠ "" →
        st.sessions.find? (fun r2 => r2.id == sanitizeInput sessionId) = some r →
        r.expiresAt < st.now →
        ∃ st2, smValidate st sessionId = (none, st2)
          ∧ (∀ x ∈ st2.sessions, x.id ≠ sanitizeInput sessionId)
          ∧ smValidate st2 sessionId = (none, st2)) := by
  refine ⟨?_, ?_, ?_⟩
  · intro h
    simp only [smValidate]
    rw [if_pos (by simp [h])]
  · intro h
    simp only [smValidate]
    by_cases hid : (sanitizeInput sessionId == "") = true
    · rw [if_pos hid]
    · rw [if_neg hid, h]
  · intro r hne hfind hexp
    have hkey : r.id = sanitizeInput sessionId := by
      have := List.find?_some hfind
      simpa using this
    have hexpB : sessIsExpired st.now r = true := by
      simp [sessIsExpired, hexp]
    refine ⟨{ st with sessions := st.sessions.filter (fun x => !(x.id == r.id)) }, ?_, ?_, ?_⟩
    · simp only [smValidate]
      rw [if_neg (by simp [hne]), hfind]
      simp [hexpB]
    · intro x hx
      rw [List.mem_filter] at hx
      have := hx.2
      simp only [Bool.not_eq_eq_eq_not, Bool.not_true, beq_eq_false_iff_ne] at this
      rw [← hkey]
      exact this
    · simp only [smValidate]
      rw [if_neg (by simp [hne])]
      have hnone : (st.sessions.filter (fun x => !(x.id == r.id))).find?
          (fun r2 => r2.id == sanitizeInput sessionId) = none := by
        rw [List.find?_eq_none]
        intro x hx
        rw [List.mem_filter] at hx
        have := hx.2
        simp only [Bool.not_eq_eq_eq_not, Bool.not_true, beq_eq_false_iff_ne] at this
        simp only [beq_iff_eq]
        rw [← hkey]
        exact this
      rw [hnone]

/-- A user, a live session for that user, and an auth state (left
uninitialized, which C9's scenarios rely on). -/
def c9User : UserRec :=
  { id := "u-1", username := "alice", email := "a@x.com",
    provider := "github", providerId := "gh-1", createdAt := 0, updatedAt := 0 }

def c9Sess : SessRec :=
  { id := "sess-0", userId := "u-1", createdAt := 0, expiresAt := 5000 }

def c9Auth : AuthState :=
  { initialized := false,
    sess := { users := [c9User], sessions := [c9Sess], now := 1000, fresh := 1 } }

/-- An expired session (expiry strictly before the clock) for the C6
witness. -/
def c6SessExpired : SessRec :=
  { id := "sess-9", userId := "u-1", createdAt := 0, expiresAt := 900 }

def c6State : SessState :=
  { users := [c9User], sessions := [c6SessExpired], now := 1000, fresh := 2 }

/-- Witness for C6: empty id, unknown id, and the expired-session
deletion on concrete states. -/
theorem smValidate_spec_witness :
    smValidate c6State "  " = (none, c6State)
    ∧ smValidate c6State "nope" = (none, c6State)
    ∧ ∃ st2, smValidate c6State "sess-9" = (none, st2)
        ∧ (∀ x ∈ st2.sessions, x.id ≠ sanitizeInput "sess-9")
        ∧ smValidate st2 "sess-9" = (none, st2) := by
  refine ⟨?_, ?_, ?_⟩
  · exact (smValidate_spec c6State "  ").1 (by decide)
  · exact (smValidate_spec c6State "nope").2.1 (by decide)
  · exact (smValidate_spec c6State "sess-9").2.2 c6SessExpired (by decide) (by decide) (by decide)

/-! ## Claim C8

`AuthServiceImpl.createSession`'s catch rethrows any error that already
matches the duck-typed `AppError` shape unchanged, and every error
`SessionManager.create` produces has that shape — so store failures are
*not* translated to `AUTHENTICATION_FAILED`; in particular creation for
a non-existent user surfaces the store's `USER_NOT_FOUND` with status
404, not 500. -/

/-- Counterexample to C8 as stated: createSession for a non-existent
user on an initialized orchestrator surfaces USER_NOT_FOUND 404 — not
AUTHENTICATION_FAILED and not status 500. -/
theorem authCreateSession_cex :
    authCreateSession ⟨true, { users := [], sessions := [], now := 0, fresh := 0 }⟩ "u1"
      = .error ⟨.userNotFound, "Cannot create session for non-existent user", 404⟩
    ∧ (∀ e, authCreateSession ⟨true, { users := [], sessions := [], now := 0, fresh := 0 }⟩ "u1"
        = .error e → e.etype ≠ .authenticationFailed ∧ e.statusCode ≠ 500) := by
  refine ⟨by decide, ?_⟩
  intro e he
  have h0 : authCreateSession ⟨true, { users := [], sessions := [], now := 0, fresh := 0 }⟩ "u1"
      = .error ⟨.userNotFound, "Cannot create session for non-existent user", 404⟩ := by decide
  rw [h0] at he
  have : (⟨.userNotFound, "Cannot create session for non-existent user", 404⟩ : AppError) = e := by
    injection he
  rw [← this]
  exact ⟨by decide, by decide⟩

/-- Claim C8 as amended: empty userId surfaces as VALIDATION_ERROR 400;
every other failure of the underlying Session Store `create` — all of
which carry the duck-typed AppError shape — is rethrown unchanged
rather than translated (non-existent user gives USER_NOT_FOUND 404);
the AUTHENTICATION_FAILED (500) wrapper is reserved for foreign
non-AppError exceptions, which the store does not produce. -/
theorem authCreateSession_spec (a : AuthState) (userId : String) :
    (jsTrim userId = "" →
      authCreateSession a userId
        = .error ⟨.validationError, "User ID is required to create session", 400⟩)
    ∧ (jsTrim userId ≠ "" →
        (∀ e, smCreate a.sess userId none = .error e →
          authCreateSession a userId = .error e)
        ∧ (∀ s st2, smCreate a.sess userId none = .ok (s, st2) →
          authCreateSession a userId = .ok (s.id, { a with sess := st2 }))
        ∧ ((∀ u ∈ a.sess.users, u.id ≠ jsTrim userId) →
          authCreateSession a userId
            = .error ⟨.userNotFound, "Cannot create session for non-existent user", 404⟩)) := by
  constructor
  · intro h
    simp only [authCreateSession]
    rw [if_pos (by simp [h])]
  · intro hne
    have hneB : (jsTrim userId == "") = false := by
      simp [hne]
    refine ⟨?_, ?_, ?_⟩
    · intro e he
      simp only [authCreateSession, hneB]
      rw [he]
      rfl
    · intro s st2 hok
      simp only [authCreateSession, hneB]
      rw [hok]
      rfl
    · intro hmiss
      have hsm : smCreate a.sess userId none
          = .error ⟨.userNotFound, "Cannot create session for non-existent user", 404⟩ := by
        have hverify : verifyUserExists a.sess (sanitizeInput userId) = false := by
          simp only [verifyUserExists]
          rw [List.any_eq_false]
          intro x hx
          simp only [beq_iff_eq]
          exact hmiss x hx
        simp only [smCreate]
        rw [if_neg (by simp [sanitizeInput, hne]), hverify]
        rfl
      simp only [authCreateSession, hneB]
      rw [hsm]
      rfl

/-- Witness for C8 (amended) on concrete states: the empty-id 400, the
pass-through of a concrete store failure, and the 404 for a missing
user. -/
theorem authCreateSession_spec_witness :
    authCreateSession c9Auth " "
      = .error ⟨.validationError, "User ID is required to create session", 400⟩
    ∧ authCreateSession ⟨true, { users := [], sessions := [], now := 3, fresh := 0 }⟩ "ghost"
      = .error ⟨.userNotFound, "Cannot create session for non-existent user", 404⟩ := by
  constructor
  · exact (authCreateSession_spec c9Auth " ").1 (by decide)
  · exact (authCreateSession_spec ⟨true, { users := [], sessions := [], now := 3, fresh := 0 }⟩
      "ghost").2 (by decide) |>.2.2 (by simp)

/-! ## Claim C9

Only `handleMicrosoftCallback` / `handleGitHubCallback` call
`ensureInitialized`; `createSession`, `validateSession` and
`destroySession` never read the flag.  Moreover the error the callbacks
surface pre-initialization is the generic CALLBACK_ERROR 500 (the
internally thrown PROVIDER_ERROR message matches none of
`handleOAuthError`'s patterns), not a PROVIDER_ERROR. -/

/-- The session row and states produced in the C9 counterexample. -/
def c9NewSess : SessRec :=
  { id := "sess-1", userId := "u-1", createdAt := 1000, expiresAt := 1000 + defaultSessionDur }

def c9AfterCreate : AuthState :=
  ⟨false, { users := [c9User], sessions := [c9Sess, c9NewSess], now := 1000, fresh := 2 }⟩

def c9AfterDestroy : AuthState :=
  ⟨false, { users := [c9User], sessions := [], now := 1000, fresh := 1 }⟩

/-- Counterexample to C9 as stated: on an uninitialized orchestrator,
createSession succeeds, validateSession resolves the user, and
destroySession succeeds — none fails with PROVIDER_ERROR 500; and even
the gated callback surfaces CALLBACK_ERROR, not PROVIDER_ERROR. -/
theorem initGate_cex :
    (∃ sid a2, authCreateSession c9Auth "u-1" = .ok (sid, a2))
    ∧ (authValidateSession c9Auth "sess-0").1 = some c9User
    ∧ (∃ a2, authDestroySession c9Auth "sess-0" = .ok a2)
    ∧ (∀ e, (handleProviderCallback cDepsUninit cStore .microsoft "abc" none none).1 = .error e
        → e.etype ≠ .oauthProviderError) := by
  refine ⟨⟨"sess-1", c9AfterCreate, by decide⟩, by decide,
    ⟨c9AfterDestroy, by decide⟩, ?_⟩
  intro e he
  have h0 : (handleProviderCallback cDepsUninit cStore .microsoft "abc" none none).1
      = .error ⟨.oauthCallbackError,
          "Authentication with microsoft failed. Please try again.", 500⟩ := by decide
  rw [h0] at he
  have : (⟨.oauthCallbackError,
      "Authentication with microsoft failed. Please try again.", 500⟩ : AppError) = e := by
    injection he
  rw [← this]
  decide

/-- Claim C9 as amended: calling either callback before initialization
fails with status 500 and zero OAuth-client invocations, but the
surfaced kind is the generic CALLBACK_ERROR (the PROVIDER_ERROR thrown
by `ensureInitialized` is re-wrapped by `handleOAuthError`'s
fallthrough); the session operations (createSession, validateSession,
destroySession) perform no initialization check — their observable
results are independent of the `initialized` flag. -/
theorem initGate_spec :
    (∀ (deps : CallbackDeps) (st : UserStore) (provider : Provider)
        (code : String) (state sessionState : Option String),
      deps.initialized = false →
      handleProviderCallback deps st provider code state sessionState
        = (.error (createOAuthError .oauthCallbackError
            ("Authentication with " ++ provider.str ++ " failed. Please try again.") 500), st, 0))
    ∧ (∀ (b : Bool) (s : SessState) (x : String),
        (authCreateSession ⟨b, s⟩ x).map (fun p => (p.1, p.2.sess))
          = (authCreateSession ⟨true, s⟩ x).map (fun p => (p.1, p.2.sess)))
    ∧ (∀ (b : Bool) (s : SessState) (x : String),
        ((authValidateSession ⟨b, s⟩ x).1, (authValidateSession ⟨b, s⟩ x).2.sess)
          = ((authValidateSession ⟨true, s⟩ x).1, (authValidateSession ⟨true, s⟩ x).2.sess))
    ∧ (∀ (b : Bool) (s : SessState) (x : String),
        (authDestroySession ⟨b, s⟩ x).map (fun a2 => a2.sess)
          = (authDestroySession ⟨true, s⟩ x).map (fun a2 => a2.sess)) := by
  refine ⟨?_, ?_, ?_, ?_⟩
  · intro deps st provider code state sessionState h
    simp only [handleProviderCallback, h]
    rfl
  · intro b s x
    simp only [authCreateSession]
    by_cases hid : (jsTrim x == "") = true
    · rw [if_pos hid, if_pos hid]
    · rw [if_neg hid, if_neg hid]
      split <;> rfl
  · intro b s x
    simp only [authValidateSession]
    by_cases hid : (jsTrim x == "") = true
    · rw [if_pos hid, if_pos hid]
    · rw [if_neg hid, if_neg hid]
      split
      · rfl
      · split
        · split <;> rfl
        · rfl
  · intro b s x
    simp only [authDestroySession]
    by_cases hid : (jsTrim x == "") = true
    · rw [if_pos hid, if_pos hid]
    · rw [if_neg hid, if_neg hid]
      split <;> rfl

/-- Witness for C9 (amended): the uninitialized callback on concrete
inputs, and flag-independence of createSession at a concrete state. -/
theorem initGate_spec_witness :
    handleProviderCallback cDepsUninit cStore .github "abc" none none
      = (.error (createOAuthError .oauthCallbackError
          "Authentication with github failed. Please try again." 500), cStore, 0)
    ∧ (authCreateSession ⟨false, c9Auth.sess⟩ "u-1").map (fun p => (p.1, p.2.sess))
        = (authCreateSession ⟨true, c9Auth.sess⟩ "u-1").map (fun p => (p.1, p.2.sess)) := by
  constructor
  · exact initGate_spec.1 cDepsUninit cStore .github "abc" none none rfl
  · exact initGate_spec.2.1 false c9Auth.sess "u-1"

/-! ## Claim C7: `SessionManager.cleanup` at the SQL text level

`cleanup()` runs `DELETE FROM sessions WHERE expires_at < datetime('now')`.
The `expires_at` column holds exactly the TEXT written by
`Session.toDatabaseRow`, i.e. `Date#toISOString()` output
(`YYYY-MM-DDTHH:MM:SS.mmmZ`), while `datetime('now')` yields
`YYYY-MM-DD HH:MM:SS`; both are TEXT, so SQLite compares them under the
default BINARY collation (byte order; all characters here are ASCII).
We therefore model this table as rows of stored strings plus the store
clock, render both timestamp formats exactly, and compare
lexicographically by code point. -/

/-- Calendar components of a UTC instant. -/
structure DateParts where
  year : Nat
  month : Nat
  day : Nat
  hour : Nat
  minute : Nat
  second : Nat
  ms : Nat
deriving DecidableEq, Repr

/-- Fixed-width zero-padded decimal rendering (the field widths used by
`toISOString` and `datetime('now')`). -/
def padDigits (width n : Nat) : List Char :=
  (List.range width).reverse.map (fun i => digitChar (n / 10 ^ i % 10))

/-- `Date#toISOString()`: `YYYY-MM-DDTHH:MM:SS.mmmZ` (UTC). -/
def isoStr (t : DateParts) : String :=
  ⟨padDigits 4 t.year ++ '-' :: padDigits 2 t.month ++ '-' :: padDigits 2 t.day
    ++ 'T' :: padDigits 2 t.hour ++ ':' :: padDigits 2 t.minute
    ++ ':' :: padDigits 2 t.second ++ '.' :: padDigits 3 t.ms ++ ['Z']⟩

/-- SQLite `datetime('now')`: `YYYY-MM-DD HH:MM:SS` (UTC). -/
def sqliteNowStr (t : DateParts) : String :=
  ⟨padDigits 4 t.year ++ '-' :: padDigits 2 t.month ++ '-' :: padDigits 2 t.day
    ++ ' ' :: padDigits 2 t.hour ++ ':' :: padDigits 2 t.minute
    ++ ':' :: padDigits 2 t.second⟩

/-- Byte-order (BINARY collation) comparison of two character lists;
for the ASCII strings at hand this is exactly SQLite's `<` on TEXT. -/
def charsLtB : List Char → List Char → Bool
  | [], [] => false
  | [], _ :: _ => true
  | _ :: _, [] => false
  | a :: as, b :: bs =>
    a.toNat < b.toNat || (a.toNat == b.toNat && charsLtB as bs)

/-- SQLite TEXT `<` under BINARY collation. -/
def sqliteTextLt (a b : String) : Bool :=
  charsLtB a.data b.data

/-- A `sessions` row as stored: all four columns are TEXT. -/
structure SRow where
  id : String
  userId : String
  createdAt : String
  expiresAt : String
deriving DecidableEq, Repr

/-- The sessions table plus the store's clock. -/
structure SessTable where
  rows : List SRow
  now : DateParts
deriving DecidableEq, Repr

/-- `SessionManager.cleanup()`:
`DELETE FROM sessions WHERE expires_at < datetime('now')`, returning
`result.changes` (the number of rows deleted). -/
def smCleanup (st : SessTable) : Nat × SessTable :=
  let hits := st.rows.filter (fun r => sqliteTextLt r.expiresAt (sqliteNowStr st.now))
  (hits.length,
   { st with rows := st.rows.filter (fun r => !(sqliteTextLt r.expiresAt (sqliteNowStr st.now))) })

/-- Chronological order on calendar components (lexicographic). -/
def natListLt : List Nat → List Nat → Bool
  | [], [] => false
  | [], _ :: _ => true
  | _ :: _, [] => false
  | a :: as, b :: bs => a < b || (a == b && natListLt as bs)

def dtKey (t : DateParts) : List Nat :=
  [t.year, t.month, t.day, t.hour, t.minute, t.second, t.ms]

/-- "Strictly earlier instant" on calendar components. -/
def dtLtB (a b : DateParts) : Bool :=
  natListLt (dtKey a) (dtKey b)

/-- A session that expired one hour before the sweep, on the same UTC
day — written through the normal `create` path, so its `expires_at` is
in ISO format. -/
def bugExpiry : DateParts := ⟨2025, 6, 15, 11, 0, 0, 0⟩

def bugNow : DateParts := ⟨2025, 6, 15, 12, 0, 0, 0⟩

def bugRow : SRow :=
  { id := "sess1", userId := "u1",
    createdAt := isoStr ⟨2025, 6, 15, 10, 0, 0, 0⟩, expiresAt := isoStr bugExpiry }

def bugState : SessTable := { rows := [bugRow], now := bugNow }

/-- A row that expired on the previous UTC day. -/
def prevDayRow : SRow :=
  { id := "sess2", userId := "u1",
    createdAt := isoStr ⟨2025, 6, 13, 23, 0, 0, 0⟩,
    expiresAt := isoStr ⟨2025, 6, 14, 23, 0, 0, 0⟩ }

def bugState2 : SessTable := { rows := [bugRow, prevDayRow], now := bugNow }

/-- Claim C7 fails on the code: `cleanup` compares the ISO-format
stored text against `datetime('now')` text, and at index 10 the ISO
separator `T` (0x54) exceeds the space (0x20), so a row sharing the
sweep's UTC date is never `<` the now-string.  Concretely: a session
one hour past expiry survives `cleanup` (count 0, table unchanged),
while a previous-day row is removed — so "no past-expiry row remains"
is violated exactly for same-day expirations.  The count returned does
equal the number of rows removed. -/
theorem smCleanup_same_day_bug :
    dtLtB bugExpiry bugNow = true
    ∧ smCleanup bugState = (0, bugState)
    ∧ smCleanup bugState2 = (1, bugState)
    ∧ bugRow.expiresAt = isoStr bugExpiry := by
  decide

end SSO
